import Mathlib

/-!
Shallow embedding of the confirmation/authorization gate of the
localcoinswap-mcp server (source: `src/handlers.ts`).

The embedding models:
* the parameter validators `validateCurrencySymbol` and `validateAmount`
  (including an exact-rational characterization of what `parseFloat`
  produces on regex-accepted decimal strings: the IEEE-754 double rounds
  to `0` exactly when the value is `≤ 2^(-1075)` and to `Infinity` exactly
  when the value is `≥ 2^1024 - 2^970`, by round-to-nearest、ties-to-even);
* the in-memory confirmation store (`pendingConfirmations` Map) as an
  association list with JS `Map` get/set/delete semantics;
* `validateConfirmation` (redeem), `cleanupExpiredConfirmations` (sweep);
* the two gated handlers `handleCreateSwap` and `handleStartTrade`,
  with the external Trading-Service calls modelled by an environment of
  `Except`-valued outcomes and a trace of which external calls were made.

Time is a `Nat` of milliseconds (`Date.now()`); the fresh confirmation id
produced by `generateConfirmationId` is passed in as a parameter.
All bound parameters are strings in the source handlers, so parameter
records are `List (String × String)` in JS-object entry order; JS `!==`
on these values is string inequality.
-/

namespace LCS

/-- The closed set of sensitive actions (`'create_swap' | 'start_trade'`). -/
inductive Action where
  | create_swap : Action
  | start_trade : Action
deriving DecidableEq, Repr

/-- Bound parameters: JS object entries, in insertion order. -/
abbrev Params := List (String × String)

/-- `PendingConfirmation` record from `handlers.ts`. -/
structure PendingConfirmation where
  action : Action
  params : Params
  expiresAt : Nat
deriving DecidableEq, Repr

/-- The `pendingConfirmations` map, as an association list. `mapSet`
keeps at most one entry per key, matching JS `Map` semantics. -/
abbrev Store := List (String × PendingConfirmation)

/-- JS `Map.prototype.get`. -/
def mapGet : Store → String → Option PendingConfirmation
  | [], _ => none
  | e :: s, id => if e.1 = id then some e.2 else mapGet s id

/-- JS `Map.prototype.delete`. -/
def mapDelete (s : Store) (id : String) : Store :=
  s.filter (fun e => e.1 ≠ id)

/-- JS `Map.prototype.set`. -/
def mapSet (s : Store) (id : String) (v : PendingConfirmation) : Store :=
  (id, v) :: mapDelete s id

/-- Lookup in a JS object (`record[key]`): `some` the value, or `none`
for `undefined`. First entry wins (JS objects have unique keys). -/
def paramGet : Params → String → Option String
  | [], _ => none
  | e :: ps, key => if e.1 = key then some e.2 else paramGet ps key

-- ============================================================================
-- JS string primitives used by the validators
-- ============================================================================

/-- JS whitespace characters relevant to `String.prototype.trim`
(ASCII range, by character code: space, tab, LF, CR, VT, FF; the
handlers only ever see ASCII input). -/
def jsWhitespace (c : Char) : Bool :=
  c.toNat = 32 || c.toNat = 9 || c.toNat = 10 || c.toNat = 13 ||
    c.toNat = 11 || c.toNat = 12

/-- JS `String.prototype.trim`. -/
def jsTrim (s : String) : String :=
  ⟨((s.data.dropWhile jsWhitespace).reverse.dropWhile jsWhitespace).reverse⟩

/-- ASCII uppercase of one character (JS `toUpperCase` on ASCII input):
codes 97–122 (`'a'`–`'z'`) shift down by 32. -/
def asciiUpper (c : Char) : Char :=
  if 97 ≤ c.toNat ∧ c.toNat ≤ 122 then Char.ofNat (c.toNat - 32) else c

/-- JS `String.prototype.toUpperCase` (ASCII fragment). -/
def jsToUpper (s : String) : String :=
  ⟨s.data.map asciiUpper⟩

/-- One character of the class `[A-Z0-9]`. -/
def symbolChar (c : Char) : Bool :=
  ('A' ≤ c && c ≤ 'Z') || ('0' ≤ c && c ≤ '9')

/-- Test of `CURRENCY_SYMBOL_REGEX = /^[A-Z0-9]{2,10}$/`. -/
def symbolMatch (s : String) : Bool :=
  s.data.all symbolChar && decide (2 ≤ s.data.length) && decide (s.data.length ≤ 10)

/-- `validateCurrencySymbol` from `handlers.ts`: normalize
(`toUpperCase().trim()`), match against the regex, `none` on success. -/
def validateCurrencySymbol (symbol : String) : Option String :=
  let normalized := jsTrim (jsToUpper symbol)
  if ¬ symbolMatch normalized then
    some ("Invalid currency symbol: \"" ++ symbol ++ "\". Must be 2-10 alphanumeric characters.")
  else
    none

/-- Numeric value of a digit string (most significant first). -/
def digitsVal (l : List Char) : Nat :=
  l.foldl (fun a c => 10 * a + (c.toNat - 48)) 0

/-- Parse of the regex `/^\d+(\.\d+)?$/`: `some (n, k)` when the char
list matches, where the exact decimal value is `n / 10^k`. -/
def decParse (l : List Char) : Option (Nat × Nat) :=
  let ds := l.takeWhile Char.isDigit
  let rest := l.dropWhile Char.isDigit
  if ds.isEmpty then none
  else
    match rest with
    | [] => some (digitsVal ds, 0)
    | c :: fs =>
      if c = '.' ∧ ¬ fs.isEmpty ∧ fs.all Char.isDigit then
        some (digitsVal (ds ++ fs), fs.length)
      else none

/-- `parseFloat` on a regex-accepted decimal string of value `n / 10^k`
yields the double `0` (hence fails the `numValue <= 0` check) exactly
when the value is at most `2^(-1075)`: round-to-nearest with ties to
even sends everything `≤ 2^(-1075)` (midpoint between `0` and the least
subnormal `2^(-1074)`) to `0`. -/
def parsesToZero (n k : Nat) : Bool :=
  n <<< 1075 ≤ 10 ^ k

/-- `parseFloat` on a regex-accepted decimal string of value `n / 10^k`
yields `Infinity` (hence fails the `isFinite` check) exactly when the
value is at least `2^1024 - 2^970`, the overflow threshold of binary64
round-to-nearest-even. -/
def parsesToInfinity (n k : Nat) : Bool :=
  ((1 <<< 1024) - (1 <<< 970)) * 10 ^ k ≤ n

/-- The shift in `parsesToZero` is a power of two: the test is
`n * 2^1075 ≤ 10^k`, i.e. `n / 10^k ≤ 2^(-1075)`. -/
theorem parsesToZero_iff (n k : Nat) :
    parsesToZero n k = true ↔ n * 2 ^ 1075 ≤ 10 ^ k := by
  simp [parsesToZero, Nat.shiftLeft_eq]

/-- The shifts in `parsesToInfinity` are powers of two: the test is
`2^1024 - 2^970 ≤ n / 10^k`, the binary64 overflow threshold. -/
theorem parsesToInfinity_iff (n k : Nat) :
    parsesToInfinity n k = true ↔ (2 ^ 1024 - 2 ^ 970) * 10 ^ k ≤ n := by
  simp [parsesToInfinity, Nat.shiftLeft_eq]

/-- `validateAmount` from `handlers.ts`: trim; match
`/^\d+(\.\d+)?$/`; `parseFloat` must be `> 0` and finite. -/
def validateAmount (amount : String) : Option String :=
  let trimmed := jsTrim amount
  match decParse trimmed.data with
  | none =>
    some ("Invalid amount: \"" ++ amount ++ "\". Must be a positive number.")
  | some (n, k) =>
    if parsesToZero n k then
      some ("Invalid amount: \"" ++ amount ++ "\". Must be greater than zero.")
    else if parsesToInfinity n k then
      some ("Invalid amount: \"" ++ amount ++ "\". Number is not finite.")
    else
      none

-- ============================================================================
-- Confirmation store operations
-- ============================================================================

/-- Redemption error kinds of `validateConfirmation`, in the source's
message order: "Invalid or expired confirmation ID" (not found),
"Confirmation ID has expired" (expired), "issued for a different
action" (wrong action), "Parameter \"k\" differs" (parameter
mismatch). -/
inductive ConfirmError where
  | notFound : ConfirmError
  | expired : ConfirmError
  | wrongAction (actual : Action) : ConfirmError
  | paramMismatch (key : String) : ConfirmError
deriving DecidableEq, Repr

/-- The `for (const [key, value] of Object.entries(expectedParams))`
loop body of `validateConfirmation`: first key of `expected` (in entry
order) whose stored value differs (`pending.params[key] !== value`,
with `undefined` counting as different). -/
def firstMismatch : Params → Params → Option String
  | [], _ => none
  | (key, value) :: rest, stored =>
    if paramGet stored key ≠ some value then some key
    else firstMismatch rest stored

/-- `validateConfirmation` from `handlers.ts`, acting on the store and
the current time: returns the error (or `none` for success) and the
store after the call's side effects. -/
def validateConfirmation (confirmationId : String) (expectedAction : Action)
    (expectedParams : Params) (now : Nat) (s : Store) :
    Option ConfirmError × Store :=
  match mapGet s confirmationId with
  | none => (some .notFound, s)
  | some pending =>
    if pending.expiresAt < now then
      (some .expired, mapDelete s confirmationId)
    else if pending.action ≠ expectedAction then
      (some (.wrongAction pending.action), s)
    else
      match firstMismatch expectedParams pending.params with
      | some key => (some (.paramMismatch key), s)
      | none => (none, mapDelete s confirmationId)

/-- `cleanupExpiredConfirmations` from `handlers.ts`: delete every
record with `expiresAt < now`. -/
def cleanupExpiredConfirmations (now : Nat) (s : Store) : Store :=
  s.filter (fun e => ! decide (e.2.expiresAt < now))

-- ============================================================================
-- Handlers
-- ============================================================================

/-- `ServerConfig` from `types.ts` (the `apiUrl` field plays no role in
the gate and is omitted). JS truthiness of `config.apiToken` is
`apiToken ≠ ""`. -/
structure ServerConfig where
  apiToken : String
  requireConfirmation : Bool
deriving DecidableEq, Repr

/-- External Trading-Service calls a gated handler can make. -/
inductive ExtCall where
  | estimateSwap : ExtCall
  | createSwap : ExtCall
  | getOffer : ExtCall
  | startTrade : ExtCall
deriving DecidableEq, Repr

/-- Outcomes of the external Trading-Service calls for one handler run
(`.error msg` models the client method throwing). Response payloads
only feed the display text, which is out of scope, so successful calls
carry no data. -/
structure Env where
  estimateSwap : Except String Unit
  createSwap : Except String Unit
  getOffer : Except String Unit
  startTrade : Except String Unit
deriving Repr

/-- Handler outcome, abstracting the `ToolResponse` text. -/
inductive HandlerResult where
  | missingToken : HandlerResult
  | invalid (msg : String) : HandlerResult
  | confirmationRequired (id : String) : HandlerResult
  | upstream (msg : String) : HandlerResult
  | gateError (e : ConfirmError) : HandlerResult
  | swapCreated : HandlerResult
  | tradeStarted : HandlerResult
deriving DecidableEq, Repr

/-- Parameters of `handleCreateSwap`. -/
structure SwapParams where
  from_currency : String
  to_currency : String
  from_amount : String
  confirm : Option Bool
  confirmation_id : Option String
deriving DecidableEq, Repr

/-- Parameters of `handleStartTrade`. -/
structure TradeParams where
  offer_uuid : String
  amount : String
  confirm : Option Bool
  confirmation_id : Option String
deriving DecidableEq, Repr

/-- JS truthiness of the optional `confirmation_id` string
(`undefined` and `""` are falsy). -/
def cidPresent : Option String → Bool
  | none => false
  | some s => s ≠ ""

/-- The normalized bound parameters of `handleCreateSwap`, in the
object-literal entry order of the source. -/
def swapNormalizedParams (p : SwapParams) : Params :=
  [("from_currency", jsToUpper p.from_currency),
   ("to_currency", jsToUpper p.to_currency),
   ("from_amount", p.from_amount)]

/-- The normalized bound parameters of `handleStartTrade`. -/
def tradeNormalizedParams (p : TradeParams) : Params :=
  [("offer_uuid", p.offer_uuid),
   ("amount", p.amount)]

/-- `handleCreateSwap` from `handlers.ts`. `freshId` is the value
`generateConfirmationId()` would produce; `now` is `Date.now()`.
Returns the outcome, the store after the run, and the trace of
external Trading-Service calls in order. -/
def handleCreateSwap (config : ServerConfig) (env : Env) (freshId : String)
    (now : Nat) (p : SwapParams) (s : Store) :
    HandlerResult × Store × List ExtCall :=
  if config.apiToken = "" then (.missingToken, s, [])
  else
    match validateCurrencySymbol p.from_currency with
    | some e => (.invalid e, s, [])
    | none =>
      match validateCurrencySymbol p.to_currency with
      | some e => (.invalid e, s, [])
      | none =>
        match validateAmount p.from_amount with
        | some e => (.invalid e, s, [])
        | none =>
          let normalizedParams := swapNormalizedParams p
          if config.requireConfirmation ∧ p.confirm ≠ some true ∧
              cidPresent p.confirmation_id = false then
            -- store the pending action, THEN fetch the display estimate
            let s₁ := mapSet s freshId
              ⟨.create_swap, normalizedParams, now + 5 * 60 * 1000⟩
            match env.estimateSwap with
            | .error msg => (.upstream ("Error creating swap: " ++ msg), s₁, [.estimateSwap])
            | .ok _ => (.confirmationRequired freshId, s₁, [.estimateSwap])
          else
            if cidPresent p.confirmation_id then
              match validateConfirmation (p.confirmation_id.getD "")
                  .create_swap normalizedParams now s with
              | (some e, s₁) => (.gateError e, s₁, [])
              | (none, s₁) =>
                match env.createSwap with
                | .error msg => (.upstream ("Error creating swap: " ++ msg), s₁, [.createSwap])
                | .ok _ => (.swapCreated, s₁, [.createSwap])
            else
              match env.createSwap with
              | .error msg => (.upstream ("Error creating swap: " ++ msg), s, [.createSwap])
              | .ok _ => (.swapCreated, s, [.createSwap])

/-- `handleStartTrade` from `handlers.ts`: the display offer is fetched
BEFORE the pending record is stored (the mirror image of
`handleCreateSwap`'s ordering). -/
def handleStartTrade (config : ServerConfig) (env : Env) (freshId : String)
    (now : Nat) (p : TradeParams) (s : Store) :
    HandlerResult × Store × List ExtCall :=
  if config.apiToken = "" then (.missingToken, s, [])
  else
    match validateAmount p.amount with
    | some e => (.invalid e, s, [])
    | none =>
      let normalizedParams := tradeNormalizedParams p
      if config.requireConfirmation ∧ p.confirm ≠ some true ∧
          cidPresent p.confirmation_id = false then
        -- fetch the display offer, THEN store the pending action
        match env.getOffer with
        | .error msg => (.upstream ("Error starting trade: " ++ msg), s, [.getOffer])
        | .ok _ =>
          let s₁ := mapSet s freshId
            ⟨.start_trade, normalizedParams, now + 5 * 60 * 1000⟩
          (.confirmationRequired freshId, s₁, [.getOffer])
      else
        if cidPresent p.confirmation_id then
          match validateConfirmation (p.confirmation_id.getD "")
              .start_trade normalizedParams now s with
          | (some e, s₁) => (.gateError e, s₁, [])
          | (none, s₁) =>
            match env.startTrade with
            | .error msg => (.upstream ("Error starting trade: " ++ msg), s₁, [.startTrade])
            | .ok _ => (.tradeStarted, s₁, [.startTrade])
        else
          match env.startTrade with
          | .error msg => (.upstream ("Error starting trade: " ++ msg), s, [.startTrade])
          | .ok _ => (.tradeStarted, s, [.startTrade])

-- ============================================================================
-- Helper lemmas: the store as a JS Map
-- ============================================================================

theorem mapGet_mapSet_self (s : Store) (id : String) (v : PendingConfirmation) :
    mapGet (mapSet s id v) id = some v := by
  simp [mapSet, mapGet]

theorem mapGet_mapDelete_self (s : Store) (id : String) :
    mapGet (mapDelete s id) id = none := by
  induction s with
  | nil => rfl
  | cons e t ih =>
    by_cases h : e.1 = id
    · simpa [mapDelete, List.filter_cons, h] using ih
    · simpa [mapDelete, List.filter_cons, h, mapGet] using ih

theorem mapGet_eq_none_of_not_mem (s : Store) (id : String)
    (h : id ∉ s.map Prod.fst) : mapGet s id = none := by
  induction s with
  | nil => rfl
  | cons e t ih =>
    simp only [List.map_cons, List.mem_cons] at h
    push_neg at h
    have h1 : ¬ e.1 = id := fun he => h.1 he.symm
    simp [mapGet, h1, ih h.2]

theorem firstMismatch_eq_none (ps stored : Params)
    (h : ∀ kv ∈ ps, paramGet stored kv.1 = some kv.2) :
    firstMismatch ps stored = none := by
  induction ps with
  | nil => rfl
  | cons kv rest ih =>
    have hk := h kv (List.mem_cons_self _ _)
    simp only [firstMismatch]
    rw [if_neg (by simp [hk])]
    exact ih fun kv' h' => h kv' (List.mem_cons_of_mem _ h')

theorem firstMismatch_first_diff (ps₁ ps₂ stored : Params) (k v : String)
    (h₁ : ∀ kv ∈ ps₁, paramGet stored kv.1 = some kv.2)
    (hk : paramGet stored k ≠ some v) :
    firstMismatch (ps₁ ++ (k, v) :: ps₂) stored = some k := by
  induction ps₁ with
  | nil => simp [firstMismatch, hk]
  | cons kv rest ih =>
    have hkv := h₁ kv (List.mem_cons_self _ _)
    simp only [List.cons_append, firstMismatch]
    rw [if_neg (by simp [hkv])]
    exact ih fun kv' h' => h₁ kv' (List.mem_cons_of_mem _ h')

/-- Successful redemption: record present, not expired, action matches,
all expected parameters agree with the stored record. -/
theorem validateConfirmation_ok (s : Store) (id : String)
    (p : PendingConfirmation) (ps : Params) (now : Nat)
    (hget : mapGet s id = some p) (hlive : ¬ p.expiresAt < now)
    (hmatch : ∀ kv ∈ ps, paramGet p.params kv.1 = some kv.2) :
    validateConfirmation id p.action ps now s = (none, mapDelete s id) := by
  unfold validateConfirmation
  rw [hget]
  simp [hlive, firstMismatch_eq_none ps p.params hmatch]

-- ============================================================================
-- Helper lemmas: trim and uppercase
-- ============================================================================

theorem toNat_ofNat_valid (n : Nat) (h : Nat.isValidChar n) :
    (Char.ofNat n).toNat = n := by
  simp [Char.ofNat, h, Char.ofNatAux, Char.toNat, UInt32.toNat]

theorem asciiUpper_toNat (c : Char) :
    (asciiUpper c).toNat =
      if 97 ≤ c.toNat ∧ c.toNat ≤ 122 then c.toNat - 32 else c.toNat := by
  unfold asciiUpper
  by_cases h : 97 ≤ c.toNat ∧ c.toNat ≤ 122
  · rw [if_pos h, if_pos h, toNat_ofNat_valid _ (Or.inl (by omega))]
  · rw [if_neg h, if_neg h]

theorem jsWhitespace_asciiUpper (c : Char) :
    jsWhitespace (asciiUpper c) = jsWhitespace c := by
  simp only [jsWhitespace, asciiUpper_toNat]
  by_cases h : 97 ≤ c.toNat ∧ c.toNat ≤ 122
  · rw [if_pos h]
    have h1 := h.1
    have h2 := h.2
    have hL : ((c.toNat - 32 = 32 : Bool) || (c.toNat - 32 = 9 : Bool) ||
        (c.toNat - 32 = 10 : Bool) || (c.toNat - 32 = 13 : Bool) ||
        (c.toNat - 32 = 11 : Bool) || (c.toNat - 32 = 12 : Bool)) = false := by
      simp only [Bool.or_eq_false_iff, decide_eq_false_iff_not]
      omega
    have hR : ((c.toNat = 32 : Bool) || (c.toNat = 9 : Bool) ||
        (c.toNat = 10 : Bool) || (c.toNat = 13 : Bool) ||
        (c.toNat = 11 : Bool) || (c.toNat = 12 : Bool)) = false := by
      simp only [Bool.or_eq_false_iff, decide_eq_false_iff_not]
      omega
    rw [hL, hR]
  · rw [if_neg h]

/-- The list-level computation performed by `jsTrim`. -/
theorem jsTrim_eq_trimL (s : String) :
    jsTrim s = ⟨List.rdropWhile jsWhitespace (s.data.dropWhile jsWhitespace)⟩ := rfl

theorem jsTrim_data (s : String) :
    (jsTrim s).data = List.rdropWhile jsWhitespace (s.data.dropWhile jsWhitespace) := rfl

theorem jsToUpper_data (s : String) :
    (jsToUpper s).data = s.data.map asciiUpper := rfl

theorem dropWhile_rdropWhile_dropWhile (l : List Char) :
    List.dropWhile jsWhitespace
        (List.rdropWhile jsWhitespace (l.dropWhile jsWhitespace)) =
      List.rdropWhile jsWhitespace (l.dropWhile jsWhitespace) := by
  rcases he : List.rdropWhile jsWhitespace (l.dropWhile jsWhitespace) with _ | ⟨c, t⟩
  · rfl
  · have hc : jsWhitespace c = false := by
      obtain ⟨u, hu⟩ :=
        List.rdropWhile_prefix jsWhitespace (l.dropWhile jsWhitespace)
      rw [he] at hu
      have hid := List.dropWhile_idempotent jsWhitespace l
      rw [← hu] at hid
      by_cases hc0 : jsWhitespace c
      · exfalso
        rw [List.cons_append, List.dropWhile_cons, if_pos hc0] at hid
        have hlen := congrArg List.length hid
        have hle := (List.dropWhile_suffix (l := t ++ u) jsWhitespace).length_le
        simp only [List.length_cons, List.length_append] at hlen hle
        omega
      · simpa using hc0
    simp [List.dropWhile_cons, hc]

/-- `toUpperCase` and `trim` commute (uppercasing never creates or
destroys whitespace). -/
theorem jsTrim_jsToUpper (s : String) :
    jsTrim (jsToUpper s) = jsToUpper (jsTrim s) := by
  have hcomp : jsWhitespace ∘ asciiUpper = jsWhitespace :=
    funext jsWhitespace_asciiUpper
  show String.mk _ = String.mk _
  apply congrArg String.mk
  simp only [jsTrim_data, jsToUpper_data, List.rdropWhile, List.dropWhile_map,
    hcomp, ← List.map_reverse]

/-- `trim` is idempotent. -/
theorem jsTrim_idem (s : String) : jsTrim (jsTrim s) = jsTrim s := by
  rw [jsTrim_eq_trimL s, jsTrim_eq_trimL]
  apply congrArg String.mk
  show List.rdropWhile jsWhitespace (List.dropWhile jsWhitespace
    (List.rdropWhile jsWhitespace (s.data.dropWhile jsWhitespace))) = _
  rw [dropWhile_rdropWhile_dropWhile, List.rdropWhile_idempotent]

-- ============================================================================
-- Helper lemmas: validateConfirmation outcomes
-- ============================================================================

theorem validateConfirmation_notFound (s : Store) (id : String) (a : Action)
    (ps : Params) (now : Nat) (hget : mapGet s id = none) :
    validateConfirmation id a ps now s = (some .notFound, s) := by
  unfold validateConfirmation
  rw [hget]

theorem validateConfirmation_expired (s : Store) (id : String)
    (p : PendingConfirmation) (a : Action) (ps : Params) (now : Nat)
    (hget : mapGet s id = some p) (hexp : p.expiresAt < now) :
    validateConfirmation id a ps now s = (some .expired, mapDelete s id) := by
  unfold validateConfirmation
  rw [hget]
  simp [hexp]

theorem validateConfirmation_wrongAction (s : Store) (id : String)
    (p : PendingConfirmation) (a : Action) (ps : Params) (now : Nat)
    (hget : mapGet s id = some p) (hlive : ¬ p.expiresAt < now)
    (hne : p.action ≠ a) :
    validateConfirmation id a ps now s = (some (.wrongAction p.action), s) := by
  unfold validateConfirmation
  rw [hget]
  simp [hlive, hne]

theorem validateConfirmation_mismatch (s : Store) (id : String)
    (p : PendingConfirmation) (ps₁ ps₂ : Params) (k v : String) (now : Nat)
    (hget : mapGet s id = some p) (hlive : ¬ p.expiresAt < now)
    (h₁ : ∀ kv ∈ ps₁, paramGet p.params kv.1 = some kv.2)
    (hk : paramGet p.params k ≠ some v) :
    validateConfirmation id p.action (ps₁ ++ (k, v) :: ps₂) now s
      = (some (.paramMismatch k), s) := by
  unfold validateConfirmation
  rw [hget]
  simp [hlive, firstMismatch_first_diff ps₁ ps₂ p.params k v h₁ hk]

-- ============================================================================
-- Claim theorems
-- ============================================================================

/-- Claim C1: for every action and every bound parameter map, creating a
pending confirmation (inserting a fresh record with a 5-minute expiry)
and then redeeming it with the identical action and identical
parameters before expiry succeeds, with the record already deleted in
the returned store (so deletion precedes the protected execution), and
a second redemption of the same id — with any action, parameters and
time — fails with `NotFound` and leaves the store unchanged. -/
theorem create_then_redeem_succeeds_once
    (a : Action) (ps : Params) (s : Store) (id : String) (t t' : Nat)
    (hps : ∀ kv ∈ ps, paramGet ps kv.1 = some kv.2)
    (hlive : ¬ t + 5 * 60 * 1000 < t') :
    validateConfirmation id a ps t'
        (mapSet s id ⟨a, ps, t + 5 * 60 * 1000⟩)
      = (none, mapDelete (mapSet s id ⟨a, ps, t + 5 * 60 * 1000⟩) id) ∧
    ∀ (a' : Action) (ps' : Params) (t'' : Nat),
      validateConfirmation id a' ps' t''
          (mapDelete (mapSet s id ⟨a, ps, t + 5 * 60 * 1000⟩) id)
        = (some .notFound,
            mapDelete (mapSet s id ⟨a, ps, t + 5 * 60 * 1000⟩) id) := by
  constructor
  · exact validateConfirmation_ok _ id ⟨a, ps, t + 5 * 60 * 1000⟩ ps t'
      (mapGet_mapSet_self s id _) hlive hps
  · intro a' ps' t''
    exact validateConfirmation_notFound _ id a' ps' t''
      (mapGet_mapDelete_self _ id)

/-- Witness for C1 at a concrete instance. -/
theorem create_then_redeem_succeeds_once_witness :
    validateConfirmation "cid" .create_swap [("from_amount", "1.0")] 1000
        (mapSet [] "cid" ⟨.create_swap, [("from_amount", "1.0")], 0 + 5 * 60 * 1000⟩)
      = (none,
          mapDelete (mapSet [] "cid"
            ⟨.create_swap, [("from_amount", "1.0")], 0 + 5 * 60 * 1000⟩) "cid") ∧
    validateConfirmation "cid" .start_trade [] 2000
        (mapDelete (mapSet [] "cid"
          ⟨.create_swap, [("from_amount", "1.0")], 0 + 5 * 60 * 1000⟩) "cid")
      = (some .notFound,
          mapDelete (mapSet [] "cid"
            ⟨.create_swap, [("from_amount", "1.0")], 0 + 5 * 60 * 1000⟩) "cid") := by
  have h := create_then_redeem_succeeds_once .create_swap [("from_amount", "1.0")]
    [] "cid" 0 1000 (by decide) (by decide)
  exact ⟨h.1, h.2 .start_trade [] 2000⟩

/-- Claim C3: for a live (unexpired) record, redeeming with a
mismatched action returns `WrongAction` and redeeming with a bound
parameter differing from the stored value (the first differing key
being `k`) returns `ParameterMismatch k`; in both cases the store is
unchanged, and a subsequent redemption of the same id with matching
parameters before expiry succeeds. -/
theorem recoverable_mismatches_allow_retry
    (s : Store) (id : String) (p : PendingConfirmation) (now : Nat)
    (hget : mapGet s id = some p) (hlive : ¬ p.expiresAt < now) :
    (∀ (a : Action) (ps : Params), p.action ≠ a →
        validateConfirmation id a ps now s
          = (some (.wrongAction p.action), s)) ∧
    (∀ (ps₁ ps₂ : Params) (k v : String),
        (∀ kv ∈ ps₁, paramGet p.params kv.1 = some kv.2) →
        paramGet p.params k ≠ some v →
        validateConfirmation id p.action (ps₁ ++ (k, v) :: ps₂) now s
          = (some (.paramMismatch k), s)) ∧
    (∀ (ps' : Params) (now' : Nat), ¬ p.expiresAt < now' →
        (∀ kv ∈ ps', paramGet p.params kv.1 = some kv.2) →
        validateConfirmation id p.action ps' now' s = (none, mapDelete s id)) :=
  ⟨fun a ps hne => validateConfirmation_wrongAction s id p a ps now hget hlive hne,
   fun ps₁ ps₂ k v h₁ hk =>
     validateConfirmation_mismatch s id p ps₁ ps₂ k v now hget hlive h₁ hk,
   fun ps' now' hlive' hmatch =>
     validateConfirmation_ok s id p ps' now' hget hlive' hmatch⟩

/-- Witness for C3 at a concrete instance: a stored `create_swap`
record redeemed as `start_trade` (wrong action), then with a wrong
amount (parameter mismatch at the first differing key), then correctly. -/
theorem recoverable_mismatches_allow_retry_witness :
    validateConfirmation "cid" .start_trade [] 10
        [("cid", ⟨.create_swap, [("from_amount", "1.0")], 100⟩)]
      = (some (.wrongAction .create_swap),
          [("cid", ⟨.create_swap, [("from_amount", "1.0")], 100⟩)]) ∧
    validateConfirmation "cid" .create_swap [("from_amount", "999.0")] 10
        [("cid", ⟨.create_swap, [("from_amount", "1.0")], 100⟩)]
      = (some (.paramMismatch "from_amount"),
          [("cid", ⟨.create_swap, [("from_amount", "1.0")], 100⟩)]) ∧
    validateConfirmation "cid" .create_swap [("from_amount", "1.0")] 20
        [("cid", ⟨.create_swap, [("from_amount", "1.0")], 100⟩)]
      = (none, mapDelete [("cid", ⟨.create_swap, [("from_amount", "1.0")], 100⟩)] "cid") := by
  have h := recoverable_mismatches_allow_retry
    [("cid", ⟨.create_swap, [("from_amount", "1.0")], 100⟩)] "cid"
    ⟨.create_swap, [("from_amount", "1.0")], 100⟩ 10 (by decide) (by decide)
  refine ⟨h.1 .start_trade [] (by decide), ?_, h.2.2 [("from_amount", "1.0")] 20 (by decide) (by decide)⟩
  exact h.2.1 [] [] "from_amount" "999.0" (by decide) (by decide)

/-- When a non-empty `confirmation_id` is supplied and redemption
fails, `handleCreateSwap` surfaces the gate error, applies the
redemption's store side effect, and makes no external call. -/
theorem handleCreateSwap_redeem_error (config : ServerConfig) (env : Env)
    (freshId : String) (now : Nat) (p : SwapParams) (s s' : Store)
    (c : String) (e : ConfirmError)
    (htok : config.apiToken ≠ "")
    (hfrom : validateCurrencySymbol p.from_currency = none)
    (hto : validateCurrencySymbol p.to_currency = none)
    (hamt : validateAmount p.from_amount = none)
    (hcid : p.confirmation_id = some c) (hc : c ≠ "")
    (hvc : validateConfirmation c .create_swap (swapNormalizedParams p) now s
      = (some e, s')) :
    handleCreateSwap config env freshId now p s = (.gateError e, s', []) := by
  have hpres : cidPresent (some c) = true := by
    simpa [cidPresent] using hc
  have hg : ¬ (config.requireConfirmation ∧ p.confirm ≠ some true ∧
      cidPresent (some c) = false) := by
    intro hcon
    rw [hpres] at hcon
    exact Bool.noConfusion hcon.2.2
  simp only [handleCreateSwap, if_neg htok, hfrom, hto, hamt, hcid, if_neg hg]
  simp [hpres, hvc]

/-- When a non-empty `confirmation_id` is supplied and redemption
fails, `handleStartTrade` surfaces the gate error, applies the
redemption's store side effect, and makes no external call. -/
theorem handleStartTrade_redeem_error (config : ServerConfig) (env : Env)
    (freshId : String) (now : Nat) (p : TradeParams) (s s' : Store)
    (c : String) (e : ConfirmError)
    (htok : config.apiToken ≠ "")
    (hamt : validateAmount p.amount = none)
    (hcid : p.confirmation_id = some c) (hc : c ≠ "")
    (hvc : validateConfirmation c .start_trade (tradeNormalizedParams p) now s
      = (some e, s')) :
    handleStartTrade config env freshId now p s = (.gateError e, s', []) := by
  have hpres : cidPresent (some c) = true := by
    simpa [cidPresent] using hc
  have hg : ¬ (config.requireConfirmation ∧ p.confirm ≠ some true ∧
      cidPresent (some c) = false) := by
    intro hcon
    rw [hpres] at hcon
    exact Bool.noConfusion hcon.2.2
  simp only [handleStartTrade, if_neg htok, hamt, hcid, if_neg hg]
  simp [hpres, hvc]

/-- Claim C4: a record whose `expiresAt` is in the past is never
treated as valid: redemption fails with `Expired` and deletes the
record as a side effect, and neither gated handler executes the
protected external operation (no external call occurs at all on this
path). -/
theorem expired_redemption_fails_deletes_no_execution
    (s : Store) (id : String) (p : PendingConfirmation) (now : Nat)
    (hget : mapGet s id = some p) (hexp : p.expiresAt < now) :
    (∀ (a : Action) (ps : Params),
        validateConfirmation id a ps now s
          = (some .expired, mapDelete s id)) ∧
    (∀ (config : ServerConfig) (env : Env) (freshId : String) (sp : SwapParams),
        config.apiToken ≠ "" →
        validateCurrencySymbol sp.from_currency = none →
        validateCurrencySymbol sp.to_currency = none →
        validateAmount sp.from_amount = none →
        sp.confirmation_id = some id → id ≠ "" →
        handleCreateSwap config env freshId now sp s
          = (.gateError .expired, mapDelete s id, [])) ∧
    (∀ (config : ServerConfig) (env : Env) (freshId : String) (tp : TradeParams),
        config.apiToken ≠ "" →
        validateAmount tp.amount = none →
        tp.confirmation_id = some id → id ≠ "" →
        handleStartTrade config env freshId now tp s
          = (.gateError .expired, mapDelete s id, [])) := by
  have hvc : ∀ (a : Action) (ps : Params),
      validateConfirmation id a ps now s = (some .expired, mapDelete s id) :=
    fun a ps => validateConfirmation_expired s id p a ps now hget hexp
  refine ⟨hvc, ?_, ?_⟩
  · intro config env freshId sp htok hfrom hto hamt hcid hne
    exact handleCreateSwap_redeem_error config env freshId now sp s _ id .expired
      htok hfrom hto hamt hcid hne (hvc .create_swap (swapNormalizedParams sp))
  · intro config env freshId tp htok hamt hcid hne
    exact handleStartTrade_redeem_error config env freshId now tp s _ id .expired
      htok hamt hcid hne (hvc .start_trade (tradeNormalizedParams tp))

/-- Witness for C4 at a concrete instance: a record that expired at
time 100, redeemed at time 200 through `handleCreateSwap`. -/
theorem expired_redemption_fails_deletes_no_execution_witness :
    validateConfirmation "cid" .create_swap [] 200
        [("cid", ⟨.create_swap,
          [("from_currency", "ETH"), ("to_currency", "USDT"), ("from_amount", "1.0")], 100⟩)]
      = (some .expired, []) ∧
    handleCreateSwap ⟨"token", true⟩ ⟨.ok (), .ok (), .ok (), .ok ()⟩ "fresh" 200
        ⟨"ETH", "USDT", "1.0", none, some "cid"⟩
        [("cid", ⟨.create_swap,
          [("from_currency", "ETH"), ("to_currency", "USDT"), ("from_amount", "1.0")], 100⟩)]
      = (.gateError .expired, [], []) := by
  have h := expired_redemption_fails_deletes_no_execution
    [("cid", ⟨.create_swap,
      [("from_currency", "ETH"), ("to_currency", "USDT"), ("from_amount", "1.0")], 100⟩)]
    "cid"
    ⟨.create_swap,
      [("from_currency", "ETH"), ("to_currency", "USDT"), ("from_amount", "1.0")], 100⟩
    200 (by decide) (by decide)
  constructor
  · have h1 := h.1 .create_swap []
    simpa [mapDelete] using h1
  · have h2 := h.2.1 ⟨"token", true⟩ ⟨.ok (), .ok (), .ok (), .ok ()⟩ "fresh"
      ⟨"ETH", "USDT", "1.0", none, some "cid"⟩
      (by decide) (by decide) (by decide) (by decide) rfl (by decide)
    simpa [mapDelete] using h2

/-- Claim C8: the periodic sweep deletes exactly the records whose
`expiresAt` is in the past: after `cleanupExpiredConfirmations`, a
lookup returns a record iff the original store returned that same
record and it was not expired. -/
theorem sweep_removes_all_and_only_expired
    (now : Nat) (s : Store) (hnd : (s.map Prod.fst).Nodup) :
    ∀ (id : String) (p : PendingConfirmation),
      mapGet (cleanupExpiredConfirmations now s) id = some p ↔
        (mapGet s id = some p ∧ ¬ p.expiresAt < now) := by
  induction s with
  | nil => intro id p; simp [cleanupExpiredConfirmations, mapGet]
  | cons e t ih =>
    simp only [List.map_cons, List.nodup_cons] at hnd
    intro id p
    by_cases hl : e.2.expiresAt < now
    · have hdrop : cleanupExpiredConfirmations now (e :: t)
          = cleanupExpiredConfirmations now t := by
        simp [cleanupExpiredConfirmations, List.filter_cons, hl]
      rw [hdrop]
      by_cases hid : e.1 = id
      · subst hid
        have hnone : mapGet (cleanupExpiredConfirmations now t) e.1 = none := by
          apply mapGet_eq_none_of_not_mem
          intro hmem
          exact hnd.1 (((List.filter_sublist t).map Prod.fst).mem hmem)
        rw [hnone]
        simp [mapGet, hl]
        intro hpe
        rw [← hpe]
        exact hl
      · rw [ih hnd.2 id p]
        simp [mapGet, hid]
    · have hkeep : cleanupExpiredConfirmations now (e :: t)
          = e :: cleanupExpiredConfirmations now t := by
        simp [cleanupExpiredConfirmations, List.filter_cons, hl]
      rw [hkeep]
      by_cases hid : e.1 = id
      · simp only [mapGet, hid, if_pos rfl, ih hnd.2 id p]
        constructor
        · intro hp
          refine ⟨hp, ?_⟩
          rw [← Option.some.injEq] at hp
          cases hp
          exact hl
        · intro hp
          exact hp.1
      · simp only [mapGet, hid, if_false, ih hnd.2 id p]

/-- Witness for C8 at a concrete store holding one live and one
expired record, swept at time 150. -/
theorem sweep_removes_all_and_only_expired_witness :
    (mapGet (cleanupExpiredConfirmations 150
        [("a", ⟨.create_swap, [], 100⟩), ("b", ⟨.start_trade, [], 200⟩)]) "b"
      = some ⟨.start_trade, [], 200⟩ ↔
        (mapGet [("a", ⟨.create_swap, [], 100⟩), ("b", ⟨.start_trade, [], 200⟩)] "b"
          = some ⟨.start_trade, [], 200⟩ ∧ ¬ (200 : Nat) < 150)) ∧
    (mapGet (cleanupExpiredConfirmations 150
        [("a", ⟨.create_swap, [], 100⟩), ("b", ⟨.start_trade, [], 200⟩)]) "a"
      = some ⟨.create_swap, [], 100⟩ ↔
        (mapGet [("a", ⟨.create_swap, [], 100⟩), ("b", ⟨.start_trade, [], 200⟩)] "a"
          = some ⟨.create_swap, [], 100⟩ ∧ ¬ (100 : Nat) < 150)) := by
  have h := sweep_removes_all_and_only_expired 150
    [("a", ⟨.create_swap, [], 100⟩), ("b", ⟨.start_trade, [], 200⟩)] (by decide)
  exact ⟨h "b" ⟨.start_trade, [], 200⟩, h "a" ⟨.create_swap, [], 100⟩⟩

/-- Claim C9: the amount check accepts exactly the strings whose
trimmed form matches `/^\d+(\.\d+)?$/` and whose parsed numeric value
is strictly positive (does not round to the double `0`) and finite
(does not round to `Infinity`). -/
theorem validateAmount_accepts_iff (s : String) :
    validateAmount s = none ↔
      ∃ n k : Nat, decParse (jsTrim s).data = some (n, k) ∧
        parsesToZero n k = false ∧ parsesToInfinity n k = false := by
  unfold validateAmount
  rcases h : decParse (jsTrim s).data with _ | ⟨n, k⟩
  · simp [h]
  · by_cases h0 : parsesToZero n k
    · simp [h, h0]
    · by_cases hi : parsesToInfinity n k
      · simp [h, h0, hi]
      · simp only [h, h0, hi]
        simp
        exact ⟨n, k, ⟨rfl, rfl⟩, by simpa using h0, by simpa using hi⟩

/-- Claim C2 as stated is false on the code: with `requireConfirmation`
false (so the spec's first gate path applies) but a `confirmation_id`
supplied, `handleCreateSwap` consults the confirmation store — the
unknown id fails with `NotFound` and the external create call is never
made (empty call trace), instead of proceeding directly to execution. -/
theorem direct_path_ignores_cid_counterexample :
    handleCreateSwap ⟨"token", false⟩ ⟨.ok (), .ok (), .ok (), .ok ()⟩ "fresh" 0
        ⟨"ETH", "USDT", "1.0", none, some "invalid_id"⟩ []
      = (.gateError .notFound, [], []) := by decide

/-- Claim C2 amended: if `requireConfirmation` is false or the caller
passed `confirm === true`, AND no (non-empty) `confirmationId` was
supplied, both handlers proceed directly to execution of the external
call (call trace is exactly the execute call) with no token created
(store unchanged); a supplied `confirmationId` is consulted even when
the direct-execution condition holds. -/
theorem direct_execution_without_cid :
    (∀ (config : ServerConfig) (env : Env) (freshId : String) (now : Nat)
        (p : SwapParams) (s : Store),
        config.apiToken ≠ "" →
        validateCurrencySymbol p.from_currency = none →
        validateCurrencySymbol p.to_currency = none →
        validateAmount p.from_amount = none →
        (config.requireConfirmation = false ∨ p.confirm = some true) →
        cidPresent p.confirmation_id = false →
        env.createSwap = .ok () →
        handleCreateSwap config env freshId now p s
          = (.swapCreated, s, [.createSwap])) ∧
    (∀ (config : ServerConfig) (env : Env) (freshId : String) (now : Nat)
        (p : TradeParams) (s : Store),
        config.apiToken ≠ "" →
        validateAmount p.amount = none →
        (config.requireConfirmation = false ∨ p.confirm = some true) →
        cidPresent p.confirmation_id = false →
        env.startTrade = .ok () →
        handleStartTrade config env freshId now p s
          = (.tradeStarted, s, [.startTrade])) := by
  constructor
  · intro config env freshId now p s htok hfrom hto hamt hgate hcid henv
    have hg : ¬ (config.requireConfirmation ∧ p.confirm ≠ some true ∧
        cidPresent p.confirmation_id = false) := by
      rcases hgate with h | h
      · intro hc
        rw [h] at hc
        exact Bool.noConfusion hc.1
      · intro hc
        exact hc.2.1 h
    simp only [handleCreateSwap, if_neg htok, hfrom, hto, hamt, if_neg hg,
      hcid, henv]
    simp
    intro h1 h2
    exact absurd ⟨h1, h2, hcid⟩ hg
  · intro config env freshId now p s htok hamt hgate hcid henv
    have hg : ¬ (config.requireConfirmation ∧ p.confirm ≠ some true ∧
        cidPresent p.confirmation_id = false) := by
      rcases hgate with h | h
      · intro hc
        rw [h] at hc
        exact Bool.noConfusion hc.1
      · intro hc
        exact hc.2.1 h
    simp only [handleStartTrade, if_neg htok, hamt, if_neg hg, hcid, henv]
    simp
    intro h1 h2
    exact absurd ⟨h1, h2, hcid⟩ hg

/-- Witness for the amended C2 at a concrete instance
(`requireConfirmation` off, no confirmation id). -/
theorem direct_execution_without_cid_witness :
    handleCreateSwap ⟨"token", false⟩ ⟨.ok (), .ok (), .ok (), .ok ()⟩ "fresh" 0
        ⟨"ETH", "USDT", "1.0", none, none⟩ []
      = (.swapCreated, [], [.createSwap]) :=
  direct_execution_without_cid.1 ⟨"token", false⟩ ⟨.ok (), .ok (), .ok (), .ok ()⟩
    "fresh" 0 ⟨"ETH", "USDT", "1.0", none, none⟩ []
    (by decide) (by decide) (by decide) (by decide) (Or.inl rfl) rfl rfl

/-- Claim C5: a call whose currency-symbol or amount input fails
validation returns the validation error with the confirmation store
unchanged and no external Trading-Service call made (empty trace), for
both gated handlers. -/
theorem invalid_input_no_store_no_calls :
    (∀ (config : ServerConfig) (env : Env) (freshId : String) (now : Nat)
        (p : SwapParams) (s : Store),
        config.apiToken ≠ "" →
        (validateCurrencySymbol p.from_currency ≠ none ∨
         validateCurrencySymbol p.to_currency ≠ none ∨
         validateAmount p.from_amount ≠ none) →
        ∃ msg, handleCreateSwap config env freshId now p s
          = (.invalid msg, s, [])) ∧
    (∀ (config : ServerConfig) (env : Env) (freshId : String) (now : Nat)
        (p : TradeParams) (s : Store),
        config.apiToken ≠ "" →
        validateAmount p.amount ≠ none →
        ∃ msg, handleStartTrade config env freshId now p s
          = (.invalid msg, s, [])) := by
  constructor
  · intro config env freshId now p s htok hbad
    rcases hf : validateCurrencySymbol p.from_currency with _ | e
    · rcases ht : validateCurrencySymbol p.to_currency with _ | e
      · rcases ha : validateAmount p.from_amount with _ | e
        · exfalso
          rcases hbad with h | h | h
          · exact h hf
          · exact h ht
          · exact h ha
        · exact ⟨e, by simp only [handleCreateSwap, if_neg htok, hf, ht, ha]⟩
      · exact ⟨e, by simp only [handleCreateSwap, if_neg htok, hf, ht]⟩
    · exact ⟨e, by simp only [handleCreateSwap, if_neg htok, hf]⟩
  · intro config env freshId now p s htok hbad
    rcases ha : validateAmount p.amount with _ | e
    · exact absurd ha hbad
    · exact ⟨e, by simp only [handleStartTrade, if_neg htok, ha]⟩

/-- Witness for C5 at a concrete instance: a one-character currency
symbol fails validation and the call is pure. -/
theorem invalid_input_no_store_no_calls_witness :
    ∃ msg, handleCreateSwap ⟨"token", true⟩ ⟨.ok (), .ok (), .ok (), .ok ()⟩
        "fresh" 0 ⟨"E", "USDT", "1.0", none, none⟩ []
      = (.invalid msg, [], []) :=
  invalid_input_no_store_no_calls.1 ⟨"token", true⟩ ⟨.ok (), .ok (), .ok (), .ok ()⟩
    "fresh" 0 ⟨"E", "USDT", "1.0", none, none⟩ []
    (by decide) (Or.inl (by decide))

/-- Claim C6: with `requireConfirmation` on, no `confirmation_id` and
`confirm` explicitly `false`, both handlers behave exactly as if
`confirm` were absent (the runs are equal for every input), and the run
returns `confirmation_required` with the fresh id, stores the pending
record, and makes only the read-only preview call (no execution). -/
theorem confirm_false_treated_as_absent :
    (∀ (config : ServerConfig) (env : Env) (freshId : String) (now : Nat)
        (p : SwapParams) (s : Store),
        handleCreateSwap config env freshId now { p with confirm := some false } s
          = handleCreateSwap config env freshId now { p with confirm := none } s) ∧
    (∀ (config : ServerConfig) (env : Env) (freshId : String) (now : Nat)
        (p : TradeParams) (s : Store),
        handleStartTrade config env freshId now { p with confirm := some false } s
          = handleStartTrade config env freshId now { p with confirm := none } s) ∧
    (∀ (config : ServerConfig) (env : Env) (freshId : String) (now : Nat)
        (p : SwapParams) (s : Store),
        config.apiToken ≠ "" → config.requireConfirmation = true →
        validateCurrencySymbol p.from_currency = none →
        validateCurrencySymbol p.to_currency = none →
        validateAmount p.from_amount = none →
        p.confirmation_id = none → env.estimateSwap = .ok () →
        handleCreateSwap config env freshId now { p with confirm := some false } s
          = (.confirmationRequired freshId,
              mapSet s freshId
                ⟨.create_swap, swapNormalizedParams p, now + 5 * 60 * 1000⟩,
              [.estimateSwap])) ∧
    (∀ (config : ServerConfig) (env : Env) (freshId : String) (now : Nat)
        (p : TradeParams) (s : Store),
        config.apiToken ≠ "" → config.requireConfirmation = true →
        validateAmount p.amount = none →
        p.confirmation_id = none → env.getOffer = .ok () →
        handleStartTrade config env freshId now { p with confirm := some false } s
          = (.confirmationRequired freshId,
              mapSet s freshId
                ⟨.start_trade, tradeNormalizedParams p, now + 5 * 60 * 1000⟩,
              [.getOffer])) := by
  refine ⟨?_, ?_, ?_, ?_⟩
  · intro config env freshId now p s
    simp [handleCreateSwap, swapNormalizedParams]
  · intro config env freshId now p s
    simp [handleStartTrade, tradeNormalizedParams]
  · intro config env freshId now p s htok hreq hfrom hto hamt hcid henv
    simp [handleCreateSwap, htok, hreq, hfrom, hto, hamt, hcid, henv,
      swapNormalizedParams, cidPresent]
  · intro config env freshId now p s htok hreq hamt hcid henv
    simp [handleStartTrade, htok, hreq, hamt, hcid, henv,
      tradeNormalizedParams, cidPresent]

/-- Witness for C6 at a concrete instance: `confirm := some false`
yields the same run as `confirm := none`, and that run demands
confirmation. -/
theorem confirm_false_treated_as_absent_witness :
    handleCreateSwap ⟨"token", true⟩ ⟨.ok (), .ok (), .ok (), .ok ()⟩ "fresh" 0
        ⟨"ETH", "USDT", "1.0", some false, none⟩ []
      = handleCreateSwap ⟨"token", true⟩ ⟨.ok (), .ok (), .ok (), .ok ()⟩ "fresh" 0
        ⟨"ETH", "USDT", "1.0", none, none⟩ [] ∧
    handleCreateSwap ⟨"token", true⟩ ⟨.ok (), .ok (), .ok (), .ok ()⟩ "fresh" 0
        ⟨"ETH", "USDT", "1.0", some false, none⟩ []
      = (.confirmationRequired "fresh",
          mapSet [] "fresh"
            ⟨.create_swap, swapNormalizedParams ⟨"ETH", "USDT", "1.0", some false, none⟩,
              0 + 5 * 60 * 1000⟩,
          [.estimateSwap]) := by
  constructor
  · exact confirm_false_treated_as_absent.1 ⟨"token", true⟩
      ⟨.ok (), .ok (), .ok (), .ok ()⟩ "fresh" 0 ⟨"ETH", "USDT", "1.0", some false, none⟩ []
  · have h := confirm_false_treated_as_absent.2.2.1 ⟨"token", true⟩
      ⟨.ok (), .ok (), .ok (), .ok ()⟩ "fresh" 0 ⟨"ETH", "USDT", "1.0", some false, none⟩ []
      (by decide) rfl (by decide) (by decide) (by decide) rfl rfl
    simpa [swapNormalizedParams] using h

/-- Claim C7: when the confirmation-issuing path's read-only preview
call fails, `handleCreateSwap` has already inserted the pending record
(the store keeps the orphaned record alongside the error), while
`handleStartTrade` fetches the preview offer before inserting, so its
store is unchanged on the same failure. -/
theorem preview_failure_store_ordering :
    (∀ (config : ServerConfig) (env : Env) (freshId : String) (now : Nat)
        (p : SwapParams) (s : Store) (msg : String),
        config.apiToken ≠ "" → config.requireConfirmation = true →
        p.confirm ≠ some true → cidPresent p.confirmation_id = false →
        validateCurrencySymbol p.from_currency = none →
        validateCurrencySymbol p.to_currency = none →
        validateAmount p.from_amount = none →
        env.estimateSwap = .error msg →
        handleCreateSwap config env freshId now p s
          = (.upstream ("Error creating swap: " ++ msg),
              mapSet s freshId
                ⟨.create_swap, swapNormalizedParams p, now + 5 * 60 * 1000⟩,
              [.estimateSwap])) ∧
    (∀ (config : ServerConfig) (env : Env) (freshId : String) (now : Nat)
        (p : TradeParams) (s : Store) (msg : String),
        config.apiToken ≠ "" → config.requireConfirmation = true →
        p.confirm ≠ some true → cidPresent p.confirmation_id = false →
        validateAmount p.amount = none →
        env.getOffer = .error msg →
        handleStartTrade config env freshId now p s
          = (.upstream ("Error starting trade: " ++ msg), s, [.getOffer])) := by
  constructor
  · intro config env freshId now p s msg htok hreq hconf hcid hfrom hto hamt hest
    have hcon : config.requireConfirmation ∧ p.confirm ≠ some true ∧
        cidPresent p.confirmation_id = false := ⟨hreq, hconf, hcid⟩
    simp only [handleCreateSwap, if_neg htok, hfrom, hto, hamt,
      if_pos hcon, hest]
  · intro config env freshId now p s msg htok hreq hconf hcid hamt hoff
    have hcon : config.requireConfirmation ∧ p.confirm ≠ some true ∧
        cidPresent p.confirmation_id = false := ⟨hreq, hconf, hcid⟩
    simp only [handleStartTrade, if_neg htok, hamt, if_pos hcon, hoff]

/-- Witness for C7 at a concrete instance: the preview estimate fails,
the error is returned, and the swap store keeps the orphaned record
while the trade store stays empty. -/
theorem preview_failure_store_ordering_witness :
    handleCreateSwap ⟨"token", true⟩ ⟨.error "boom", .ok (), .ok (), .ok ()⟩ "fresh" 0
        ⟨"ETH", "USDT", "1.0", none, none⟩ []
      = (.upstream "Error creating swap: boom",
          mapSet [] "fresh"
            ⟨.create_swap, swapNormalizedParams ⟨"ETH", "USDT", "1.0", none, none⟩,
              0 + 5 * 60 * 1000⟩,
          [.estimateSwap]) ∧
    handleStartTrade ⟨"token", true⟩ ⟨.ok (), .ok (), .error "boom", .ok ()⟩ "fresh" 0
        ⟨"offer-1", "500", none, none⟩ []
      = (.upstream "Error starting trade: boom", [], [.getOffer]) := by
  constructor
  · exact preview_failure_store_ordering.1 ⟨"token", true⟩
      ⟨.error "boom", .ok (), .ok (), .ok ()⟩ "fresh" 0
      ⟨"ETH", "USDT", "1.0", none, none⟩ [] "boom"
      (by decide) rfl (by decide) rfl (by decide) (by decide) (by decide) rfl
  · exact preview_failure_store_ordering.2 ⟨"token", true⟩
      ⟨.ok (), .ok (), .error "boom", .ok ()⟩ "fresh" 0
      ⟨"offer-1", "500", none, none⟩ [] "boom"
      (by decide) rfl (by decide) rfl (by decide) rfl

/-- Claim C10: a currency symbol carrying surrounding whitespace
(trimming strictly shortens it) passes validation, and so does its
trimmed form — both normalize to the same symbol — but the bound
parameter stored at issuance is the upper-cased UNtrimmed string, so a
later redemption supplying the trimmed form fails with
`ParameterMismatch` naming `from_currency`. -/
theorem whitespace_symbol_parameter_mismatch
    (config : ServerConfig) (env env' : Env) (freshId freshId' : String)
    (now now' : Nat) (sym to_c amt : String) (s : Store)
    (htok : config.apiToken ≠ "")
    (hreq : config.requireConfirmation = true)
    (hsym : validateCurrencySymbol sym = none)
    (hws : (jsTrim sym).data.length < sym.data.length)
    (hto : validateCurrencySymbol to_c = none)
    (hamt : validateAmount amt = none)
    (henv : env.estimateSwap = .ok ())
    (hfid : freshId ≠ "")
    (hlive : ¬ now + 5 * 60 * 1000 < now') :
    validateCurrencySymbol (jsTrim sym) = none ∧
    handleCreateSwap config env freshId now ⟨sym, to_c, amt, none, none⟩ s
      = (.confirmationRequired freshId,
          mapSet s freshId
            ⟨.create_swap, swapNormalizedParams ⟨sym, to_c, amt, none, none⟩,
              now + 5 * 60 * 1000⟩,
          [.estimateSwap]) ∧
    handleCreateSwap config env' freshId' now'
        ⟨jsTrim sym, to_c, amt, none, some freshId⟩
        (mapSet s freshId
          ⟨.create_swap, swapNormalizedParams ⟨sym, to_c, amt, none, none⟩,
            now + 5 * 60 * 1000⟩)
      = (.gateError (.paramMismatch "from_currency"),
          mapSet s freshId
            ⟨.create_swap, swapNormalizedParams ⟨sym, to_c, amt, none, none⟩,
              now + 5 * 60 * 1000⟩,
          []) := by
  have hnorm : jsTrim (jsToUpper (jsTrim sym)) = jsTrim (jsToUpper sym) := by
    rw [jsTrim_jsToUpper, jsTrim_idem, ← jsTrim_jsToUpper]
  have h1 : validateCurrencySymbol (jsTrim sym) = none := by
    simp only [validateCurrencySymbol] at hsym ⊢
    rw [hnorm]
    by_cases hm : symbolMatch (jsTrim (jsToUpper sym))
    · rw [if_neg (by simpa using hm)]
    · rw [if_pos (by simpa using hm)] at hsym
      exact absurd hsym (by simp)
  have hupper_ne : jsToUpper sym ≠ jsToUpper (jsTrim sym) := by
    intro h
    have hlen := congrArg (fun z : String => z.data.length) h
    simp only [jsToUpper_data, List.length_map] at hlen
    omega
  refine ⟨h1, ?_, ?_⟩
  · simp [handleCreateSwap, htok, hreq, hsym, hto, hamt, henv, cidPresent,
      swapNormalizedParams]
  · have hget : mapGet
        (mapSet s freshId
          ⟨.create_swap, swapNormalizedParams ⟨sym, to_c, amt, none, none⟩,
            now + 5 * 60 * 1000⟩) freshId
        = some ⟨.create_swap, swapNormalizedParams ⟨sym, to_c, amt, none, none⟩,
            now + 5 * 60 * 1000⟩ :=
      mapGet_mapSet_self s freshId _
    have hk : paramGet
        (swapNormalizedParams (⟨sym, to_c, amt, none, none⟩ : SwapParams))
          "from_currency" ≠ some (jsToUpper (jsTrim sym)) := by
      simp only [swapNormalizedParams, paramGet, if_pos rfl]
      simpa using hupper_ne
    have hvc := validateConfirmation_mismatch
      (mapSet s freshId
        ⟨.create_swap, swapNormalizedParams ⟨sym, to_c, amt, none, none⟩,
          now + 5 * 60 * 1000⟩)
      freshId
      ⟨.create_swap, swapNormalizedParams ⟨sym, to_c, amt, none, none⟩,
        now + 5 * 60 * 1000⟩
      [] [("to_currency", jsToUpper to_c), ("from_amount", amt)]
      "from_currency" (jsToUpper (jsTrim sym)) now'
      hget hlive (by intro kv hkv; cases hkv) hk
    exact handleCreateSwap_redeem_error config env' freshId' now'
      ⟨jsTrim sym, to_c, amt, none, some freshId⟩ _ _ freshId
      (.paramMismatch "from_currency") htok h1 hto hamt rfl hfid
      (by simpa [swapNormalizedParams] using hvc)

/-- Witness for C10 at the concrete instance `" btc "`. -/
theorem whitespace_symbol_parameter_mismatch_witness :
    validateCurrencySymbol (jsTrim " btc ") = none ∧
    handleCreateSwap ⟨"token", true⟩ ⟨.ok (), .ok (), .ok (), .ok ()⟩ "cid" 100
        ⟨" btc ", "USDT", "1.0", none, none⟩ []
      = (.confirmationRequired "cid",
          mapSet [] "cid"
            ⟨.create_swap, swapNormalizedParams ⟨" btc ", "USDT", "1.0", none, none⟩,
              100 + 5 * 60 * 1000⟩,
          [.estimateSwap]) ∧
    handleCreateSwap ⟨"token", true⟩ ⟨.ok (), .ok (), .ok (), .ok ()⟩ "x" 200
        ⟨jsTrim " btc ", "USDT", "1.0", none, some "cid"⟩
        (mapSet [] "cid"
          ⟨.create_swap, swapNormalizedParams ⟨" btc ", "USDT", "1.0", none, none⟩,
            100 + 5 * 60 * 1000⟩)
      = (.gateError (.paramMismatch "from_currency"),
          mapSet [] "cid"
            ⟨.create_swap, swapNormalizedParams ⟨" btc ", "USDT", "1.0", none, none⟩,
              100 + 5 * 60 * 1000⟩,
          []) :=
  whitespace_symbol_parameter_mismatch ⟨"token", true⟩
    ⟨.ok (), .ok (), .ok (), .ok ()⟩ ⟨.ok (), .ok (), .ok (), .ok ()⟩
    "cid" "x" 100 200 " btc " "USDT" "1.0" []
    (by decide) rfl (by decide) (by decide) (by decide) (by decide) rfl
    (by decide) (by decide)

end LCS
